import Mathlib

/-!
Verification of the storage-optimiser pipeline (src/file_compressor.py).

The development shallowly embeds the pipeline of the DirectoryCompressor
class: directory scanning (the private scan helper and count_files),
archive construction (compress_directory), backup relocation
(backup_directory) and the driver loop (process_directories).  The
filesystem is modelled as an explicit list of files; the outcome of each
fallible operating-system call (archive open, archive finalisation,
per-entry write, side-file write, mkdir, move, rename, restore) is an
explicit boolean in an environment record, so that every control path of
the source is reachable in the model.
-/

namespace StorageOptimiser

/-- A filesystem path, as its list of components. -/
abbrev Path := List String

/-- Python Path.relative_to: `some` of the remaining components when
`base` is a prefix of `p`, and `none` (the ValueError case) otherwise. -/
def relativeTo (p base : Path) : Option Path :=
  if base.isPrefixOf p then some (p.drop base.length) else none

/-- Python str.startswith for the single-character dot pattern, used for
the hidden-directory test in the driver loop. -/
def startsWithDot (s : String) : Bool :=
  match s.data with
  | [] => false
  | c :: _ => c == '.'

/-- One file visible to the scanner.  `statOk` is false when the per-file
exists/access/stat calls raise (the inner handler at
file_compressor.py:98 catches that and drops the file); `readableOk` is
the result of the exists-and-readable test at file_compressor.py:95. -/
structure FSFile where
  path : Path
  statOk : Bool
  readableOk : Bool
  size : Nat
deriving DecidableEq, Repr

/-- A scanned file entry (the FileEntry dataclass). -/
structure FileEntry where
  source_path : Path
  archive_path : Path
  size : Nat
deriving DecidableEq, Repr

/-- os.walk over `dir`: every file strictly below `dir`.  os.walk is
called with the default onerror=None, which swallows every traversal
error (scandir failures on a missing or permission-denied directory are
ignored and the walk simply yields nothing), so the walk is a total
function; in particular it yields `[]` for a directory that cannot be
traversed. -/
def walkFiles (fs : List FSFile) (dir : Path) : List FSFile :=
  fs.filter (fun f => dir.isPrefixOf f.path && decide (dir.length < f.path.length))

/-- Per-file body of the scan loop (file_compressor.py:86-99): compute
the archive path relative to the parent of the scanned directory with a
bare-name fallback, then keep the file when the stat calls succeed and
the file exists and is readable. -/
def scanEntry (dirParent : Path) (f : FSFile) : Option FileEntry :=
  let arc : Path :=
    match relativeTo f.path dirParent with
    | some p => p
    | none => [f.path.getLastD ""]
  if f.statOk && f.readableOk then
    some { source_path := f.path, archive_path := arc, size := f.size }
  else none

/-- The private scan helper _scan_directory (file_compressor.py:69-105)
without the memo cache: the cache only stores the value computed here,
and within one run of the model the filesystem is fixed, so cached and
recomputed values agree.  The re-raise branch of the source is
unreachable for traversal errors because os.walk is total (see
`walkFiles`), so the embedding is a total function. -/
def scan_directory (fs : List FSFile) (dir : Path) : List FileEntry :=
  (walkFiles fs dir).filterMap (scanEntry dir.dropLast)

/-- count_files (file_compressor.py:107-115): pair of file count and
total size over the scanned list. -/
def count_files (fs : List FSFile) (dir : Path) : Nat × Nat :=
  ((scan_directory fs dir).length,
   (scan_directory fs dir).foldl (fun a f => a + f.size) 0)

/-- Outcomes of the fallible operating-system calls made by
compress_directory: opening the archive file for writing, finalising it
when the with-block closes, adding one entry (keyed by the source path
of the entry), and writing the failed-files side log. -/
structure CompressEnv where
  zipOpenOk : Bool
  finalizeOk : Bool
  entryOk : Path → Bool
  sideFileOk : Bool

/-- Observable result of compress_directory: the returned pair
(success, zip path), the entries actually stored in the archive, the
recorded failed source paths, the lines of the side log when it was
written, and whether the archive file still exists on disk after the
call returns. -/
structure CompressOutcome where
  success : Bool
  zipPath : Option Path
  written : List FileEntry
  failedFiles : List Path
  sideFile : Option (List Path)
  archiveOnDisk : Bool
deriving DecidableEq, Repr

/-- Archive file name: parent of the directory, then name_timestamp.zip
(file_compressor.py:123). -/
def zipName (dir : Path) (ts : String) : Path :=
  dir.dropLast ++ [dir.getLastD "" ++ "_" ++ ts ++ ".zip"]

/-- compress_directory (file_compressor.py:117-165).  Per-entry failures
are caught inside the loop and recorded in the failed list; any failure
outside the per-entry handler (archive open, finalisation, side-file
write) reaches the outer handler, which unlinks the archive file if it
exists and returns failure with no path. -/
def compress_directory (fs : List FSFile) (env : CompressEnv) (dir : Path) (ts : String) :
    CompressOutcome :=
  let files := scan_directory fs dir
  let written := files.filter (fun e => env.entryOk e.source_path)
  let failed := (files.filter (fun e => !(env.entryOk e.source_path))).map
    (fun e => e.source_path)
  if env.zipOpenOk then
    if env.finalizeOk then
      if failed.isEmpty then
        { success := true, zipPath := some (zipName dir ts), written := written,
          failedFiles := failed, sideFile := none, archiveOnDisk := true }
      else if env.sideFileOk then
        { success := true, zipPath := some (zipName dir ts), written := written,
          failedFiles := failed, sideFile := some failed, archiveOnDisk := true }
      else
        { success := false, zipPath := none, written := written,
          failedFiles := failed, sideFile := none, archiveOnDisk := false }
    else
      { success := false, zipPath := none, written := [],
        failedFiles := failed, sideFile := none, archiveOnDisk := false }
  else
    { success := false, zipPath := none, written := [],
      failedFiles := [], sideFile := none, archiveOnDisk := false }

/-- Where the original tier-1 directory ends up after a call of
backup_directory. -/
inductive DirLocation where
  | original
  | backedUp
  | tempStuck
deriving DecidableEq, Repr

/-- Outcomes of the fallible calls made by backup_directory, together
with the names already present at the backup root.  The source never
consults the backup-root contents, which the theorems below make
visible. -/
structure BackupEnv where
  existingBackups : List String
  mkdirOk : Bool
  writeAccess : Bool
  moveOk : Bool
  renameOk : Bool
  restoreOk : Bool

/-- Result of backup_directory: the returned pair and the final location
of the moved directory. -/
structure BackupOutcome where
  success : Bool
  backupPath : Option Path
  location : DirLocation
deriving DecidableEq, Repr

/-- Constructor state of DirectoryCompressor (file_compressor.py:24-38). -/
structure DirectoryCompressor where
  input_dir : Path
  file_threshold : Nat
deriving DecidableEq, Repr

/-- The backup root: input_dir/.backups (file_compressor.py:34). -/
def backup_dir (c : DirectoryCompressor) : Path := c.input_dir ++ [".backups"]

/-- backup_directory (file_compressor.py:167-196): create the backup
root, check write access, move the directory to a temporary name, then
atomically rename it to the timestamped final name.  On failure after
the move, the source tries to move the temporary entry back; if that
restoration also fails the data stays at the temporary name. -/
def backup_directory (c : DirectoryCompressor) (env : BackupEnv) (dir : Path) (ts : String) :
    BackupOutcome :=
  let bpath : Path := backup_dir c ++ [dir.getLastD "" ++ "_" ++ ts]
  if env.mkdirOk then
    if env.writeAccess then
      if env.moveOk then
        if env.renameOk then
          { success := true, backupPath := some bpath, location := DirLocation.backedUp }
        else if env.restoreOk then
          { success := false, backupPath := none, location := DirLocation.original }
        else
          { success := false, backupPath := none, location := DirLocation.tempStuck }
      else
        { success := false, backupPath := none, location := DirLocation.original }
    else
      { success := false, backupPath := none, location := DirLocation.original }
  else
    { success := false, backupPath := none, location := DirLocation.original }

/-- Terminal per-directory states of the driver loop. -/
inductive DirStatus where
  | skipped
  | compressFailed
  | backupFailed
  | backedUp
deriving DecidableEq, Repr

/-- Environment for processing one tier-1 directory. -/
structure DirEnv where
  compressEnv : CompressEnv
  backupEnv : BackupEnv

/-- Observable per-directory result of the driver loop body. -/
structure DirResult where
  status : DirStatus
  compressInvoked : Bool
  backupInvoked : Bool
  location : DirLocation
  archiveOnDisk : Bool
  backupEntryCreated : Bool
deriving DecidableEq, Repr

/-- Body of the tier-1 loop of process_directories
(file_compressor.py:217-244) for one candidate directory: count files,
compare strictly against the threshold, compress, and only on
compression success move to backup. -/
def processOne (c : DirectoryCompressor) (fs : List FSFile) (env : DirEnv) (dir : Path)
    (ts : String) : DirResult :=
  if (count_files fs dir).1 > c.file_threshold then
    let co := compress_directory fs env.compressEnv dir ts
    if co.success && co.zipPath.isSome then
      let bo := backup_directory c env.backupEnv dir ts
      if bo.success && bo.backupPath.isSome then
        { status := DirStatus.backedUp, compressInvoked := true, backupInvoked := true,
          location := bo.location, archiveOnDisk := co.archiveOnDisk,
          backupEntryCreated := true }
      else
        { status := DirStatus.backupFailed, compressInvoked := true, backupInvoked := true,
          location := bo.location, archiveOnDisk := co.archiveOnDisk,
          backupEntryCreated := decide (bo.location = DirLocation.tempStuck) }
    else
      { status := DirStatus.compressFailed, compressInvoked := true, backupInvoked := false,
        location := DirLocation.original, archiveOnDisk := co.archiveOnDisk,
        backupEntryCreated := false }
  else
    { status := DirStatus.skipped, compressInvoked := false, backupInvoked := false,
      location := DirLocation.original, archiveOnDisk := false, backupEntryCreated := false }

/-- One entry returned by iterating the input root. -/
structure T1Entry where
  name : String
  isDir : Bool
deriving DecidableEq, Repr

/-- Existence and read-write access of the input root
(file_compressor.py:207-211). -/
structure RootEnv where
  rootExists : Bool
  rootAccess : Bool
deriving DecidableEq, Repr

/-- The loop keeps an entry only when it is a directory whose name does
not start with a dot (file_compressor.py:214). -/
def isCandidate (e : T1Entry) : Bool := e.isDir && !(startsWithDot e.name)

/-- False exactly on the two statuses at which the source sets the
overall success flag to False (file_compressor.py:238 and 241). -/
def dirOk (r : DirResult) : Bool :=
  match r.status with
  | DirStatus.compressFailed => false
  | DirStatus.backupFailed => false
  | _ => true

/-- One iteration of the driver loop over the root entries. -/
def processStep (c : DirectoryCompressor) (fs : List FSFile) (ts : String)
    (acc : Bool × List (String × DirResult)) (p : T1Entry × DirEnv) :
    Bool × List (String × DirResult) :=
  if isCandidate p.1 then
    let r := processOne c fs p.2 (c.input_dir ++ [p.1.name]) ts
    (acc.1 && dirOk r, acc.2 ++ [(p.1.name, r)])
  else acc

/-- process_directories (file_compressor.py:198-256): after checking
that the input root exists and is accessible, fold the loop body over
the entries of the root; a missing or inaccessible root raises before
the loop and the outer handler returns False at once.  The result pairs
the returned boolean with the per-directory results, in order. -/
def process_directories (c : DirectoryCompressor) (renv : RootEnv) (fs : List FSFile)
    (entries : List (T1Entry × DirEnv)) (ts : String) :
    Bool × List (String × DirResult) :=
  if renv.rootExists && renv.rootAccess then
    entries.foldl (processStep c fs ts) (true, [])
  else (false, [])

/-- What one root entry contributes to the per-directory result list:
nothing when it is not a candidate, otherwise the result of the loop
body, which depends only on the entry and its own environment. -/
def runOne (c : DirectoryCompressor) (fs : List FSFile) (ts : String)
    (p : T1Entry × DirEnv) : Option (String × DirResult) :=
  if isCandidate p.1 then
    some (p.1.name, processOne c fs p.2 (c.input_dir ++ [p.1.name]) ts)
  else none

/-! Concrete fixtures used by witnesses and counterexamples. -/

/-- Input root with a small threshold. -/
def cDemo : DirectoryCompressor := { input_dir := ["root"], file_threshold := 3 }

/-- Four readable files below the tier-1 directory root/data. -/
def fsDemo : List FSFile :=
  [ { path := ["root", "data", "a.txt"], statOk := true, readableOk := true, size := 10 },
    { path := ["root", "data", "b.txt"], statOk := true, readableOk := true, size := 20 },
    { path := ["root", "data", "sub", "c.txt"], statOk := true, readableOk := true, size := 30 },
    { path := ["root", "data", "d.txt"], statOk := true, readableOk := true, size := 40 } ]

def tsDemo : String := "20250101_120000"

/-- Every operating-system call succeeds. -/
def envAllOk : CompressEnv :=
  { zipOpenOk := true, finalizeOk := true, entryOk := fun _ => true, sideFileOk := true }

/-- Archive finalisation fails (disk full on close). -/
def envFinalizeFail : CompressEnv :=
  { zipOpenOk := true, finalizeOk := false, entryOk := fun _ => true, sideFileOk := true }

/-- Every per-entry write fails, everything else succeeds. -/
def envEntryFail : CompressEnv :=
  { zipOpenOk := true, finalizeOk := true, entryOk := fun _ => false, sideFileOk := true }

/-- Every per-entry write fails and the side-file write also fails. -/
def envSideFail : CompressEnv :=
  { zipOpenOk := true, finalizeOk := true, entryOk := fun _ => false, sideFileOk := false }

/-- Every backup step succeeds, no entry at the backup root beforehand. -/
def benvAllOk : BackupEnv :=
  { existingBackups := [], mkdirOk := true, writeAccess := true, moveOk := true,
    renameOk := true, restoreOk := true }

def denvAllOk : DirEnv := { compressEnv := envAllOk, backupEnv := benvAllOk }

/-- Compression fails at finalisation, backup would succeed. -/
def denvCompressFail : DirEnv :=
  { compressEnv := { envAllOk with finalizeOk := false }, backupEnv := benvAllOk }

/-- Input root that exists and is accessible. -/
def rootOk : RootEnv := { rootExists := true, rootAccess := true }

/-- Two tier-1 directories, four readable files each. -/
def fsTwo : List FSFile :=
  fsDemo ++
  [ { path := ["root", "logs", "x.txt"], statOk := true, readableOk := true, size := 1 },
    { path := ["root", "logs", "y.txt"], statOk := true, readableOk := true, size := 2 },
    { path := ["root", "logs", "z.txt"], statOk := true, readableOk := true, size := 3 },
    { path := ["root", "logs", "w.txt"], statOk := true, readableOk := true, size := 4 } ]

/-- First directory fails compression, second one fully succeeds. -/
def entriesMix : List (T1Entry × DirEnv) :=
  [({ name := "data", isDir := true }, denvCompressFail),
   ({ name := "logs", isDir := true }, denvAllOk)]

/-- The source paths recorded as failed by one compress_directory call:
the scanned entries whose per-entry write fails. -/
def failedPaths (fs : List FSFile) (env : CompressEnv) (dir : Path) : List Path :=
  ((scan_directory fs dir).filter (fun e => !(env.entryOk e.source_path))).map
    (fun e => e.source_path)

/-! Helper lemmas. -/

/-- Dropping the last component of a prefix keeps it a prefix. -/
lemma isPrefixOf_dropLast : ∀ {l₁ l₂ : Path}, l₁.isPrefixOf l₂ = true →
    l₁.dropLast.isPrefixOf l₂ = true := by
  intro l₁
  induction l₁ with
  | nil => intro l₂ _; simp
  | cons a as ih =>
    intro l₂ h
    cases l₂ with
    | nil => simp at h
    | cons b bs =>
      rw [List.isPrefixOf_cons₂, Bool.and_eq_true] at h
      cases as with
      | nil => simp
      | cons a2 as2 =>
        rw [List.dropLast_cons₂, List.isPrefixOf_cons₂, Bool.and_eq_true]
        exact ⟨h.1, ih h.2⟩

/-- Whenever compress_directory reports failure, the outer handler has
removed any archive file and the returned path is empty. -/
lemma compress_fail_clean (fs : List FSFile) (env : CompressEnv) (dir : Path) (ts : String)
    (h : (compress_directory fs env dir ts).success = false) :
    (compress_directory fs env dir ts).zipPath = none ∧
    (compress_directory fs env dir ts).archiveOnDisk = false := by
  unfold compress_directory at h ⊢
  by_cases h1 : env.zipOpenOk = true
  · by_cases h2 : env.finalizeOk = true
    · by_cases h3 :
        ((((scan_directory fs dir).filter (fun e => !(env.entryOk e.source_path))).map
          (fun e => e.source_path)).isEmpty) = true
      · simp [h1, h2, h3] at h
      · by_cases h4 : env.sideFileOk = true
        · simp [h1, h2, h3, h4] at h
        · simp [h1, h2, h3, h4]
    · simp [h1, h2]
  · simp [h1]

/-- dirOk is exactly the complement of the two failure statuses. -/
lemma dirOk_eq_true_iff (r : DirResult) :
    dirOk r = true ↔
      (r.status ≠ DirStatus.compressFailed ∧ r.status ≠ DirStatus.backupFailed) := by
  unfold dirOk
  cases h : r.status <;> simp [h]

/-- Fold characterisation of the driver loop: the final flag is the
initial flag conjoined with per-directory health, and the result list is
the independent per-entry contributions appended to the accumulator. -/
lemma processStep_foldl (c : DirectoryCompressor) (fs : List FSFile) (ts : String) :
    ∀ (entries : List (T1Entry × DirEnv)) (b : Bool) (l : List (String × DirResult)),
      entries.foldl (processStep c fs ts) (b, l) =
        (b && (entries.filterMap (runOne c fs ts)).all (fun pr => dirOk pr.2),
         l ++ entries.filterMap (runOne c fs ts)) := by
  intro entries
  induction entries with
  | nil => intro b l; simp
  | cons p rest ih =>
    intro b l
    by_cases h : isCandidate p.1 = true
    · simp only [List.foldl_cons, List.filterMap_cons, processStep, runOne, h, if_pos]
      rw [ih]
      simp [Bool.and_assoc]
    · simp only [List.foldl_cons, List.filterMap_cons, processStep, runOne, h]
      simp only [Bool.not_eq_true] at h
      simp [h, ih]

/-- process_directories on an accessible root: the flag is the
conjunction of per-directory health and the trace is the list of
independent per-entry results. -/
lemma process_directories_spec (c : DirectoryCompressor) (renv : RootEnv) (fs : List FSFile)
    (entries : List (T1Entry × DirEnv)) (ts : String)
    (h1 : renv.rootExists = true) (h2 : renv.rootAccess = true) :
    process_directories c renv fs entries ts =
      ((entries.filterMap (runOne c fs ts)).all (fun pr => dirOk pr.2),
       entries.filterMap (runOne c fs ts)) := by
  unfold process_directories
  rw [h1, h2]
  simp [processStep_foldl]

/-! Claim theorems about compress_directory. -/

/-- C3: if compress_directory cannot finalize the archive as a whole
(archive-open failure, or failure while writing and closing the
container), any partially written archive file is deleted and the call
returns failure with no archive path; no partial archive file is left
behind. -/
theorem c3_finalize_failure_cleanup (fs : List FSFile) (env : CompressEnv) (dir : Path)
    (ts : String) (h : env.zipOpenOk = false ∨ env.finalizeOk = false) :
    (compress_directory fs env dir ts).success = false ∧
    (compress_directory fs env dir ts).zipPath = none ∧
    (compress_directory fs env dir ts).archiveOnDisk = false := by
  have hs : (compress_directory fs env dir ts).success = false := by
    unfold compress_directory
    rcases h with h | h
    · simp [h]
    · by_cases h1 : env.zipOpenOk = true <;> simp [h, h1]
  obtain ⟨ha, hb⟩ := compress_fail_clean fs env dir ts hs
  exact ⟨hs, ha, hb⟩

/-- C3 witness: archive finalisation fails on a concrete directory of
four files; the call reports failure, no path, and no file on disk. -/
theorem c3_finalize_failure_cleanup_witness :
    (envFinalizeFail.zipOpenOk = false ∨ envFinalizeFail.finalizeOk = false) ∧
    ((compress_directory fsDemo envFinalizeFail ["root", "data"] tsDemo).success = false ∧
     (compress_directory fsDemo envFinalizeFail ["root", "data"] tsDemo).zipPath = none ∧
     (compress_directory fsDemo envFinalizeFail ["root", "data"] tsDemo).archiveOnDisk = false) :=
  ⟨Or.inr rfl,
   c3_finalize_failure_cleanup fsDemo envFinalizeFail ["root", "data"] tsDemo (Or.inr rfl)⟩

/-- C4: when the container is created and finalized and the side-file
write succeeds, compress_directory records exactly the source paths of
the entries whose write failed, writes them (one path per line) to the
side file exactly when at least one entry failed, and still returns
overall success with the archive path. -/
theorem c4_side_file_on_entry_failures (fs : List FSFile) (env : CompressEnv) (dir : Path)
    (ts : String) (h1 : env.zipOpenOk = true) (h2 : env.finalizeOk = true)
    (h3 : env.sideFileOk = true) :
    (compress_directory fs env dir ts).failedFiles = failedPaths fs env dir ∧
    ((compress_directory fs env dir ts).sideFile.isSome = true ↔
      failedPaths fs env dir ≠ []) ∧
    (failedPaths fs env dir ≠ [] →
      (compress_directory fs env dir ts).success = true ∧
      (compress_directory fs env dir ts).zipPath = some (zipName dir ts) ∧
      (compress_directory fs env dir ts).sideFile = some (failedPaths fs env dir)) := by
  unfold compress_directory failedPaths
  by_cases hfe :
      ((((scan_directory fs dir).filter (fun e => !(env.entryOk e.source_path))).map
        (fun e => e.source_path)).isEmpty) = true
  · have hnil : (((scan_directory fs dir).filter (fun e => !(env.entryOk e.source_path))).map
        (fun e => e.source_path)) = [] := by simpa using hfe
    simp [h1, h2, h3, hfe, hnil]
  · have hne : (((scan_directory fs dir).filter (fun e => !(env.entryOk e.source_path))).map
        (fun e => e.source_path)) ≠ [] := by simpa using hfe
    simp [h1, h2, h3, hfe, hne]

/-- C4 witness: every per-entry write fails on the concrete directory,
so the side file is written and carries the failed paths, and the call
still succeeds with the archive path. -/
theorem c4_side_file_on_entry_failures_witness :
    envEntryFail.zipOpenOk = true ∧ envEntryFail.finalizeOk = true ∧
    envEntryFail.sideFileOk = true ∧
    ((compress_directory fsDemo envEntryFail ["root", "data"] tsDemo).sideFile.isSome = true ↔
      failedPaths fsDemo envEntryFail ["root", "data"] ≠ []) :=
  ⟨rfl, rfl, rfl,
   (c4_side_file_on_entry_failures fsDemo envEntryFail ["root", "data"] tsDemo
     rfl rfl rfl).2.1⟩

/-- C9: when every stage of the archive succeeded but the write of the
advisory failed-files side log raises, the outer handler deletes the
complete, valid archive and the call returns failure with no path. -/
theorem c9_side_file_failure_destroys_archive (fs : List FSFile) (env : CompressEnv)
    (dir : Path) (ts : String) (h1 : env.zipOpenOk = true) (h2 : env.finalizeOk = true)
    (h3 : env.sideFileOk = false) (h4 : failedPaths fs env dir ≠ []) :
    (compress_directory fs env dir ts).success = false ∧
    (compress_directory fs env dir ts).zipPath = none ∧
    (compress_directory fs env dir ts).archiveOnDisk = false := by
  have hs : (compress_directory fs env dir ts).success = false := by
    unfold failedPaths at h4
    have hfe : ((((scan_directory fs dir).filter (fun e => !(env.entryOk e.source_path))).map
        (fun e => e.source_path)).isEmpty) = false := by
      rw [List.isEmpty_eq_false]
      exact h4
    unfold compress_directory
    simp [h1, h2, h3, hfe]
  obtain ⟨ha, hb⟩ := compress_fail_clean fs env dir ts hs
  exact ⟨hs, ha, hb⟩

/-- C9 witness: concrete run in which all four entries fail and the side
log cannot be written; the finalized archive is deleted and the call
fails. -/
theorem c9_side_file_failure_destroys_archive_witness :
    envSideFail.zipOpenOk = true ∧ envSideFail.finalizeOk = true ∧
    envSideFail.sideFileOk = false ∧
    failedPaths fsDemo envSideFail ["root", "data"] ≠ [] ∧
    ((compress_directory fsDemo envSideFail ["root", "data"] tsDemo).success = false ∧
     (compress_directory fsDemo envSideFail ["root", "data"] tsDemo).zipPath = none ∧
     (compress_directory fsDemo envSideFail ["root", "data"] tsDemo).archiveOnDisk = false) :=
  ⟨rfl, rfl, rfl, by decide,
   c9_side_file_failure_destroys_archive fsDemo envSideFail ["root", "data"] tsDemo
     rfl rfl rfl (by decide)⟩

/-- C10: when the container is created and finalized and the side file
(if needed) is written, compress_directory returns success with the
archive path even when every scanned entry failed to be added or the
scanned list is empty; the resulting archive holds zero files. -/
theorem c10_empty_archive_success (fs : List FSFile) (env : CompressEnv) (dir : Path)
    (ts : String) (h1 : env.zipOpenOk = true) (h2 : env.finalizeOk = true)
    (h3 : env.sideFileOk = true)
    (h4 : ∀ e ∈ scan_directory fs dir, env.entryOk e.source_path = false) :
    (compress_directory fs env dir ts).success = true ∧
    (compress_directory fs env dir ts).zipPath = some (zipName dir ts) ∧
    (compress_directory fs env dir ts).written = [] := by
  have hw : (scan_directory fs dir).filter (fun e => env.entryOk e.source_path) = [] := by
    rw [List.filter_eq_nil_iff]
    intro a ha
    simp [h4 a ha]
  unfold compress_directory
  by_cases hfe :
      ((((scan_directory fs dir).filter (fun e => !(env.entryOk e.source_path))).map
        (fun e => e.source_path)).isEmpty) = true
  · simp [h1, h2, h3, hfe, hw]
  · simp [h1, h2, h3, hfe, hw]

/-- C10 witness: all four entries of the concrete directory fail, yet
the call succeeds with the archive path and the archive holds zero
files. -/
theorem c10_empty_archive_success_witness :
    (∀ e ∈ scan_directory fsDemo ["root", "data"], envEntryFail.entryOk e.source_path = false) ∧
    ((compress_directory fsDemo envEntryFail ["root", "data"] tsDemo).success = true ∧
     (compress_directory fsDemo envEntryFail ["root", "data"] tsDemo).zipPath =
       some (zipName ["root", "data"] tsDemo) ∧
     (compress_directory fsDemo envEntryFail ["root", "data"] tsDemo).written = []) :=
  ⟨by decide,
   c10_empty_archive_success fsDemo envEntryFail ["root", "data"] tsDemo rfl rfl rfl
     (by decide)⟩

/-! Claim theorems about backup_directory. -/

/-- C2 counterexample: with no entry at the backup root (no name
collision), backup_directory still does not use the bare base name; it
unconditionally appends the run timestamp. -/
theorem c2_backup_name_counterexample :
    benvAllOk.existingBackups = [] ∧
    (backup_directory cDemo benvAllOk ["root", "data"] tsDemo).success = true ∧
    (backup_directory cDemo benvAllOk ["root", "data"] tsDemo).backupPath ≠
      some ["root", ".backups", "data"] ∧
    (backup_directory cDemo benvAllOk ["root", "data"] tsDemo).backupPath =
      some ["root", ".backups", "data_20250101_120000"] :=
  ⟨rfl, by decide, by decide, by decide⟩

/-- C2 amended: every successful backup_directory call places the
directory at inputRoot/.backups/name_timestamp — the timestamp suffix
is appended unconditionally, with no collision check against the
contents of the backup root. -/
theorem c2_backup_name_amended (c : DirectoryCompressor) (env : BackupEnv) (dir : Path)
    (ts : String) (h : (backup_directory c env dir ts).success = true) :
    (backup_directory c env dir ts).backupPath =
      some (backup_dir c ++ [dir.getLastD "" ++ "_" ++ ts]) := by
  unfold backup_directory at h ⊢
  by_cases h1 : env.mkdirOk = true
  · by_cases h2 : env.writeAccess = true
    · by_cases h3 : env.moveOk = true
      · by_cases h4 : env.renameOk = true
        · simp [h1, h2, h3, h4]
        · by_cases h5 : env.restoreOk = true <;> simp [h1, h2, h3, h4, h5] at h
      · simp [h1, h2, h3] at h
    · simp [h1, h2] at h
  · simp [h1] at h

/-- C2 witness: the successful concrete backup lands at the timestamped
destination under the backup root. -/
theorem c2_backup_name_amended_witness :
    (backup_directory cDemo benvAllOk ["root", "data"] tsDemo).success = true ∧
    (backup_directory cDemo benvAllOk ["root", "data"] tsDemo).backupPath =
      some (backup_dir cDemo ++ [(["root", "data"] : Path).getLastD "" ++ "_" ++ tsDemo]) :=
  ⟨by decide, c2_backup_name_amended cDemo benvAllOk ["root", "data"] tsDemo (by decide)⟩

/-! Claim theorems about the driver loop body. -/

/-- C1: for a triggered tier-1 directory, backup is invoked exactly when
compression returned success, and when compression fails the directory
is never moved: it stays at its original path, the status is
CompressFailed, and no archive file remains. -/
theorem c1_backup_only_after_compress (c : DirectoryCompressor) (fs : List FSFile)
    (env : DirEnv) (dir : Path) (ts : String)
    (htrig : (count_files fs dir).1 > c.file_threshold) :
    ((processOne c fs env dir ts).backupInvoked = true →
      (compress_directory fs env.compressEnv dir ts).success = true) ∧
    ((compress_directory fs env.compressEnv dir ts).success = false →
      (processOne c fs env dir ts).backupInvoked = false ∧
      (processOne c fs env dir ts).status = DirStatus.compressFailed ∧
      (processOne c fs env dir ts).location = DirLocation.original ∧
      (processOne c fs env dir ts).archiveOnDisk = false) := by
  cases hco : (compress_directory fs env.compressEnv dir ts).success with
  | true =>
    refine ⟨fun _ => rfl, fun hfalse => ?_⟩
    exact absurd hfalse (by decide)
  | false =>
    have hcond : ((compress_directory fs env.compressEnv dir ts).success &&
        (compress_directory fs env.compressEnv dir ts).zipPath.isSome) = false := by
      simp [hco]
    have hp : processOne c fs env dir ts =
        { status := DirStatus.compressFailed, compressInvoked := true, backupInvoked := false,
          location := DirLocation.original,
          archiveOnDisk := (compress_directory fs env.compressEnv dir ts).archiveOnDisk,
          backupEntryCreated := false } := by
      unfold processOne
      rw [if_pos htrig]
      simp [hcond]
    obtain ⟨hz, had⟩ := compress_fail_clean fs env.compressEnv dir ts hco
    refine ⟨fun hb => ?_, fun _ => ?_⟩
    · rw [hp] at hb
      simp at hb
    · rw [hp]
      exact ⟨rfl, rfl, rfl, had⟩

/-- C1 witness: a concrete triggered directory whose archive fails at
finalisation is not backed up and stays at its original location. -/
theorem c1_backup_only_after_compress_witness :
    (count_files fsDemo ["root", "data"]).1 > cDemo.file_threshold ∧
    (compress_directory fsDemo denvCompressFail.compressEnv ["root", "data"] tsDemo).success
      = false ∧
    (processOne cDemo fsDemo denvCompressFail ["root", "data"] tsDemo).backupInvoked = false ∧
    (processOne cDemo fsDemo denvCompressFail ["root", "data"] tsDemo).location =
      DirLocation.original :=
  ⟨by decide, by decide,
   ((c1_backup_only_after_compress cDemo fsDemo denvCompressFail ["root", "data"] tsDemo
      (by decide)).2 (by decide)).1,
   ((c1_backup_only_after_compress cDemo fsDemo denvCompressFail ["root", "data"] tsDemo
      (by decide)).2 (by decide)).2.2.1⟩

/-- C5: the loop body compresses exactly when the scanned file count
strictly exceeds the threshold; at or below the threshold the directory
is skipped, no archive and no backup entry are created, and the
directory stays at its original path. -/
theorem c5_threshold_strict (c : DirectoryCompressor) (fs : List FSFile) (env : DirEnv)
    (dir : Path) (ts : String) :
    ((processOne c fs env dir ts).compressInvoked = true ↔
      (count_files fs dir).1 > c.file_threshold) ∧
    ((count_files fs dir).1 ≤ c.file_threshold →
      processOne c fs env dir ts =
        { status := DirStatus.skipped, compressInvoked := false, backupInvoked := false,
          location := DirLocation.original, archiveOnDisk := false,
          backupEntryCreated := false }) := by
  by_cases ht : (count_files fs dir).1 > c.file_threshold
  · constructor
    · constructor
      · intro _
        exact ht
      · intro _
        unfold processOne
        rw [if_pos ht]
        by_cases hc1 : ((compress_directory fs env.compressEnv dir ts).success &&
            (compress_directory fs env.compressEnv dir ts).zipPath.isSome) = true
        · by_cases hc2 : ((backup_directory c env.backupEnv dir ts).success &&
              (backup_directory c env.backupEnv dir ts).backupPath.isSome) = true
          · simp [hc1, hc2]
          · simp [hc1, hc2]
        · simp [hc1]
    · intro hle
      exact absurd ht (Nat.not_lt.mpr hle)
  · have heq : processOne c fs env dir ts =
        { status := DirStatus.skipped, compressInvoked := false, backupInvoked := false,
          location := DirLocation.original, archiveOnDisk := false,
          backupEntryCreated := false } := by
      unfold processOne
      rw [if_neg ht]
    constructor
    · rw [heq]
      simp [ht]
    · intro _
      exact heq

/-- C5 witness: the concrete directory root/gone has zero files, which
is at most the threshold, and it is skipped untouched. -/
theorem c5_threshold_strict_witness :
    (count_files fsDemo ["root", "gone"]).1 ≤ cDemo.file_threshold ∧
    processOne cDemo fsDemo denvAllOk ["root", "gone"] tsDemo =
      { status := DirStatus.skipped, compressInvoked := false, backupInvoked := false,
        location := DirLocation.original, archiveOnDisk := false,
        backupEntryCreated := false } :=
  ⟨by decide,
   (c5_threshold_strict cDemo fsDemo denvAllOk ["root", "gone"] tsDemo).2 (by decide)⟩

/-! Claim theorems about the whole driver. -/

/-- C6 counterexample: a missing input root makes process_directories
return False although no triggered directory failed (none was even
examined), so the claimed unconditional equivalence fails; the same
entries under an accessible root return True. -/
theorem c6_overall_result_counterexample :
    process_directories cDemo { rootExists := false, rootAccess := true } fsDemo
      [({ name := "data", isDir := true }, denvAllOk)] tsDemo = (false, []) ∧
    (process_directories cDemo rootOk fsDemo
      [({ name := "data", isDir := true }, denvAllOk)] tsDemo).1 = true :=
  ⟨by decide, by decide⟩

/-- C6 amended: when the input root exists and is accessible,
process_directories returns True exactly when no processed tier-1
directory ended in a compression or backup failure (skipped directories
never count), and the per-directory results are computed independently
for every candidate entry, so one failure never prevents the remaining
directories from being processed. -/
theorem c6_overall_result_amended (c : DirectoryCompressor) (renv : RootEnv)
    (fs : List FSFile) (entries : List (T1Entry × DirEnv)) (ts : String)
    (h1 : renv.rootExists = true) (h2 : renv.rootAccess = true) :
    ((process_directories c renv fs entries ts).1 = true ↔
      ∀ pr ∈ (process_directories c renv fs entries ts).2,
        pr.2.status ≠ DirStatus.compressFailed ∧ pr.2.status ≠ DirStatus.backupFailed) ∧
    (process_directories c renv fs entries ts).2 = entries.filterMap (runOne c fs ts) := by
  have hsp := process_directories_spec c renv fs entries ts h1 h2
  rw [hsp]
  refine ⟨?_, rfl⟩
  show (entries.filterMap (runOne c fs ts)).all (fun pr => dirOk pr.2) = true ↔ _
  rw [List.all_eq_true]
  exact ⟨fun h pr hpr => (dirOk_eq_true_iff pr.2).mp (h pr hpr),
         fun h pr hpr => (dirOk_eq_true_iff pr.2).mpr (h pr hpr)⟩

/-- C6 witness: two tier-1 directories under an accessible root, the
first failing compression and the second fully succeeding; the amended
equivalence and the independence of the per-directory results hold on
this run. -/
theorem c6_overall_result_amended_witness :
    ((process_directories cDemo rootOk fsTwo entriesMix tsDemo).1 = true ↔
      ∀ pr ∈ (process_directories cDemo rootOk fsTwo entriesMix tsDemo).2,
        pr.2.status ≠ DirStatus.compressFailed ∧ pr.2.status ≠ DirStatus.backupFailed) ∧
    (process_directories cDemo rootOk fsTwo entriesMix tsDemo).2 =
      entriesMix.filterMap (runOne cDemo fsTwo tsDemo) :=
  c6_overall_result_amended cDemo rootOk fsTwo entriesMix tsDemo rfl rfl

/-! Claim theorems about the scanner. -/

/-- C7: evaluating the scanner at a directory that cannot be traversed
(root/gone does not exist).  Because os.walk is invoked with its default
onerror=None, traversal failure is silently swallowed: the scan returns
an empty, successful result instead of failing, the directory counts as
zero files, the driver records it as Skipped, and the run reports
overall success — against the documented ScanError contract. -/
theorem c7_untraversable_dir_scans_empty :
    scan_directory fsDemo ["root", "gone"] = [] ∧
    count_files fsDemo ["root", "gone"] = (0, 0) ∧
    (processOne cDemo fsDemo denvAllOk ["root", "gone"] tsDemo).status = DirStatus.skipped ∧
    (process_directories cDemo rootOk fsDemo
      [({ name := "gone", isDir := true }, denvAllOk)] tsDemo).1 = true :=
  ⟨by decide, by decide, by decide, by decide⟩

/-- C8: every entry produced by the scanner records as its archive path
the source path taken relative to the parent of the scanned directory
(with a bare-name fallback when the relative computation is impossible),
and for scanned entries that relative computation always succeeds,
yielding the source path with the parent components removed. -/
theorem c8_archive_path_parent_relative (fs : List FSFile) (dir : Path) (e : FileEntry)
    (he : e ∈ scan_directory fs dir) :
    e.archive_path =
      (match relativeTo e.source_path dir.dropLast with
       | some p => p
       | none => [e.source_path.getLastD ""]) ∧
    relativeTo e.source_path dir.dropLast = some (e.source_path.drop (dir.length - 1)) := by
  unfold scan_directory at he
  rw [List.mem_filterMap] at he
  obtain ⟨f, hfmem, hsome⟩ := he
  have hpre : dir.isPrefixOf f.path = true := by
    unfold walkFiles at hfmem
    rw [List.mem_filter] at hfmem
    exact (Bool.and_eq_true_iff.mp hfmem.2).1
  have hpre2 : dir.dropLast.isPrefixOf f.path = true := isPrefixOf_dropLast hpre
  have hrel : relativeTo f.path dir.dropLast = some (f.path.drop (dir.length - 1)) := by
    unfold relativeTo
    rw [if_pos hpre2, List.length_dropLast]
  unfold scanEntry at hsome
  by_cases hok : (f.statOk && f.readableOk) = true
  · simp only [hok, if_true] at hsome
    injection hsome with hsome
    subst hsome
    exact ⟨rfl, hrel⟩
  · simp [hok] at hsome

/-- C8 witness: a concrete scanned entry of root/data carries the
parent-relative archive path. -/
theorem c8_archive_path_parent_relative_witness :
    ({ source_path := ["root", "data", "a.txt"], archive_path := ["data", "a.txt"],
       size := 10 } : FileEntry) ∈ scan_directory fsDemo ["root", "data"] ∧
    relativeTo (["root", "data", "a.txt"] : Path) (["root", "data"] : Path).dropLast =
      some ((["root", "data", "a.txt"] : Path).drop ((["root", "data"] : Path).length - 1)) :=
  ⟨by decide,
   (c8_archive_path_parent_relative fsDemo ["root", "data"]
     { source_path := ["root", "data", "a.txt"], archive_path := ["data", "a.txt"],
       size := 10 } (by decide)).2⟩

end StorageOptimiser
